import Mathlib

/-
Verification of the HandScape Gesture Recognition Engine
(`RobustMediaPipeTracker` in `src/src/components/MediaPipeTest.tsx`).

Shallow embedding notes, applying to every definition below:
* JavaScript numbers are modelled as exact rationals (`ℚ`); timestamps in
  milliseconds as `ℤ`.
* `Math.sqrt` is modelled as an uninterpreted parameter `sqrtQ : ℚ → ℚ`
  threaded through the definitions: the square root of a rational is in
  general irrational, and none of the verified properties depend on any
  arithmetic fact about the square-root function, so every theorem below is
  proved for an arbitrary `sqrtQ`.
* `Date.now()` is called several times inside one frame-processing pass in
  the source; all calls within one pass are modelled as the single per-frame
  timestamp `now` handed to `processFrame` (the engine is frame-synchronous,
  §5 of the spec).
* A JavaScript array access `a[i]` past the end yields `undefined`; reading a
  property of `undefined` throws a `TypeError`.  Accesses are modelled with
  `jsGet : List α → ℕ → Option α`, and each place where the source would read
  a property of a possibly-`undefined` value either pattern-matches the
  `Option` or produces `.error ()` (the `TypeError`).  A landmark stored in
  the stability buffer can itself be `undefined`, hence
  `StabEntry.position : Option Pt`.
* `this.lastGestureTime : Map<string, number>` is modelled as an association
  list with insert-at-front (`mapSet`) and first-match lookup (`mapGet`),
  which has the same get/set semantics as the JS `Map`.
* The gesture objects' `description` string and `stability`/`duration`
  diagnostic fields are omitted: no claim mentions them and no control flow
  reads them.  The landmark `z` coordinate is likewise never read by the
  engine, so points carry only `x` and `y`.
* The statically unreachable duplicate stretch/shrink blocks after the first
  `return null` in `detectTwoHandDirection` (source lines 620-682) are dead
  code and are not modelled, as the spec's §9 notes.
-/

/-- One hand landmark, the `{x, y}` part of a MediaPipe landmark record. -/
structure Pt where
  x : ℚ
  y : ℚ
deriving DecidableEq

/-- Squared Euclidean planar distance, the radicand in `distance` (source
line 686): `(p1.x - p2.x) ** 2 + (p1.y - p2.y) ** 2`. -/
def sqDist (p1 p2 : Pt) : ℚ :=
  (p1.x - p2.x) ^ 2 + (p1.y - p2.y) ^ 2

/-- JS array indexing `a[i]`: `none` models `undefined`. -/
def jsGet : List α → ℕ → Option α
  | [], _ => none
  | a :: _, 0 => some a
  | _ :: rest, n + 1 => jsGet rest n

/-- The seven gesture type strings the engine can emit from real hand data. -/
inductive GType where
  | PINCH
  | SPREAD
  | CLAP
  | STRETCH_VERTICAL
  | STRETCH_HORIZONTAL
  | SHRINK_VERTICAL
  | SHRINK_HORIZONTAL
deriving DecidableEq

/-- A gesture event handed to subscribers (the `{type, data: {...}}` object,
flattened; diagnostic `description`/`stability` strings omitted). -/
structure Gesture where
  type : GType
  handedness : String
  confidence : ℚ
  position : Pt
  timestamp : ℤ
  direction : Option String
  distance : Option ℚ
  distanceChange : Option ℚ
deriving DecidableEq

/-- Entry of `handStabilityBuffer`: `{position: landmarks[0], timestamp}`;
the position is `undefined` when the hand had no landmark 0. -/
structure StabEntry where
  position : Option Pt
  timestamp : ℤ
deriving DecidableEq

/-- Entry of `twoHandHistory` (`currentMeasurement`, source lines 490-497). -/
structure Measurement where
  timestamp : ℤ
  leftCenter : Pt
  rightCenter : Pt
  handsDistance : ℚ
  horizontalSpread : ℚ
  verticalSpread : ℚ
deriving DecidableEq

/-- A subscriber callback; `.error ()` models the callback throwing. -/
def Callback : Type := Gesture → Except Unit Unit

/-- The mutable fields of `RobustMediaPipeTracker` that the gesture engine
reads or writes (DOM/camera handles are out of scope).  `gestureHistory` and
`previousGestureData` are declared and cleared by the source but never
written to, and are kept for fidelity of `destroy()`. -/
structure EngineState where
  isInitialized : Bool
  previousGestureData : List (String × ℤ)
  gestureHistory : List Measurement
  twoHandHistory : List Measurement
  lastGestureTime : List (String × ℤ)
  handStabilityBuffer : List StabEntry
  callbacks : List Callback

/-- The per-frame input: `results.multiHandLandmarks` and the handedness
labels `results.multiHandedness[i].label` (a missing entry or label is an
absent element of the list, read back with default via `jsGet`/`getD`). -/
structure FrameInput where
  multiHandLandmarks : List (List Pt)
  multiHandedness : List String

/-- The state of a freshly constructed tracker: every buffer and map empty. -/
def initialState : EngineState :=
  { isInitialized := false
    previousGestureData := []
    gestureHistory := []
    twoHandHistory := []
    lastGestureTime := []
    handStabilityBuffer := []
    callbacks := [] }

/-- JS `Map.get`. -/
def mapGet : List (String × ℤ) → String → Option ℤ
  | [], _ => none
  | (k, v) :: rest, key => if k = key then some v else mapGet rest key

/-- JS `Map.set` (insert shadowing any earlier binding). -/
def mapSet (m : List (String × ℤ)) (k : String) (v : ℤ) : List (String × ℤ) :=
  (k, v) :: m

/-- `shouldEmitGesture` (source lines 721-731): the debounce gate.  Returns
the verdict together with the updated `lastGestureTime` map; the emission
time is recorded only on admit. -/
def shouldEmitGesture (m : List (String × ℤ)) (gestureType : String) (now : ℤ) :
    Bool × List (String × ℤ) :=
  let lastTime := (mapGet m gestureType).getD 0
  if now - lastTime < 400 then (false, m)
  else (true, mapSet m gestureType now)

/-- `calculateConfidence` (source lines 734-745). -/
def calculateConfidence (baseConfidence : ℚ) (isStable hasHistory : Bool) : ℚ :=
  let c1 := baseConfidence + (if isStable then 0.1 else 0)
  let c2 := c1 + (if hasHistory then 0.05 else 0)
  min 0.95 c2

section Engine

variable (sqrtQ : ℚ → ℚ)

/-- `distance` (source lines 685-687) on two defined points. -/
def distQ (p1 p2 : Pt) : ℚ :=
  sqrtQ (sqDist p1 p2)

/-- `distance` where either argument may be `undefined`: reading `.x` of
`undefined` throws. -/
def distO : Option Pt → Option Pt → Except Unit ℚ
  | some p1, some p2 => .ok (distQ sqrtQ p1 p2)
  | _, _ => .error ()

/-- The `push` + conditional `shift()` on `handStabilityBuffer`
(source lines 693-701), `HAND_STABILITY_FRAMES = 4`. -/
def pushTrim (buf : List StabEntry) (w : Option Pt) (now : ℤ) : List StabEntry :=
  let buf1 := buf ++ [⟨w, now⟩]
  if 4 < buf1.length then buf1.tail else buf1

/-- The `maxJitter` loop of `checkHandStability` (source lines 709-715):
fold the running maximum of consecutive displacements, throwing at the first
`undefined` position. -/
def jitterFold : ℚ → List StabEntry → Except Unit ℚ
  | acc, a :: b :: rest =>
    match distO sqrtQ a.position b.position with
    | .error e => .error e
    | .ok movement => jitterFold (max acc movement) (b :: rest)
  | acc, _ => .ok acc

/-- `checkHandStability` (source lines 690-718): push the wrist landmark,
trim to the last 4 entries, report `false` on a short buffer, otherwise
compare the maximum consecutive displacement with `MAX_HAND_JITTER = 0.02`. -/
def checkHandStability (buf : List StabEntry) (landmarks : List Pt) (now : ℤ) :
    List StabEntry × Except Unit Bool :=
  let buf2 := pushTrim buf (jsGet landmarks 0) now
  if buf2.length < 4 then (buf2, .ok false)
  else
    let recent := buf2.drop (buf2.length - 4)
    match jitterFold sqrtQ 0 recent with
    | .error e => (buf2, .error e)
    | .ok maxJitter => (buf2, .ok (decide (maxJitter < 0.02)))

/-- Result of `analyzeSingleHand`: the two state fields it may write plus the
returned gesture (`.error` = a thrown `TypeError`). -/
structure SingleHandResult where
  handStabilityBuffer : List StabEntry
  lastGestureTime : List (String × ℤ)
  gesture : Except Unit (Option Gesture)

/-- `analyzeSingleHand` (source lines 337-414).  The stability check runs
first (mutating the buffer); both distances are computed before any branch,
so a hand with fewer than 21 landmarks that passes the stability gate throws
before any debounce lookup.  `middleTip`/`ringTip` (landmarks 12/16) are
fetched by the source but never dereferenced, so their absence cannot throw.
`PINCH_THRESHOLD = 0.05`, spread threshold `0.25`,
`MIN_CONFIDENCE_THRESHOLD = 0.75`. -/
def analyzeSingleHand (buf : List StabEntry) (m : List (String × ℤ))
    (landmarks : List Pt) (handedness : String) (now : ℤ) : SingleHandResult :=
  match checkHandStability sqrtQ buf landmarks now with
  | (buf1, .error e) => ⟨buf1, m, .error e⟩
  | (buf1, .ok false) => ⟨buf1, m, .ok none⟩
  | (buf1, .ok true) =>
    match jsGet landmarks 4, jsGet landmarks 8 with
    | some thumbTip, some indexTip =>
      match jsGet landmarks 20 with
      | some pinkyTip =>
        let thumbIndexDist := distQ sqrtQ thumbTip indexTip
        let fingersSpread := distQ sqrtQ indexTip pinkyTip
        if thumbIndexDist < 0.05 then
          match shouldEmitGesture m ("PINCH_" ++ handedness) now with
          | (false, m1) => ⟨buf1, m1, .ok none⟩
          | (true, m1) =>
            let confidence := calculateConfidence 0.8 true true
            if confidence < 0.75 then ⟨buf1, m1, .ok none⟩
            else
              ⟨buf1, m1, .ok (some
                { type := .PINCH
                  handedness := handedness
                  confidence := confidence
                  position := ⟨1 - thumbTip.x, thumbTip.y⟩
                  timestamp := now
                  direction := none
                  distance := some thumbIndexDist
                  distanceChange := none })⟩
        else if fingersSpread > 0.25 then
          match shouldEmitGesture m ("SPREAD_" ++ handedness) now with
          | (false, m1) => ⟨buf1, m1, .ok none⟩
          | (true, m1) =>
            let confidence := calculateConfidence 0.75 true true
            if confidence < 0.75 then ⟨buf1, m1, .ok none⟩
            else
              match jsGet landmarks 0 with
              | some wrist =>
                ⟨buf1, m1, .ok (some
                  { type := .SPREAD
                    handedness := handedness
                    confidence := confidence
                    position := ⟨1 - wrist.x, wrist.y⟩
                    timestamp := now
                    direction := none
                    distance := some fingersSpread
                    distanceChange := none })⟩
              | none => ⟨buf1, m1, .error ()⟩
        else ⟨buf1, m, .ok none⟩
      | none => ⟨buf1, m, .error ()⟩
    | _, _ => ⟨buf1, m, .error ()⟩

/-- Result of the two-hand path: the state fields it may write plus the
returned gesture. -/
structure TwoHandResult where
  twoHandHistory : List Measurement
  lastGestureTime : List (String × ℤ)
  gesture : Except Unit (Option Gesture)

/-- `detectTwoHandDirection` (source lines 513-619).  `current` is the
measurement just pushed; `previous` is the entry three slots back.
`MIN_DISTANCE_CHANGE = 0.045`, `MIN_DIRECTION_RATIO = 2.0`,
`HISTORY_SIZE = 7`; the directional lookback requires `timeDiff ≥ 400`. -/
def detectTwoHandDirection (hist : List Measurement) (m : List (String × ℤ))
    (current : Measurement) (now : ℤ) : TwoHandResult :=
  match jsGet hist (hist.length - 3) with
  | none => ⟨hist, m, .error ()⟩
  | some previous =>
    let timeDiff := current.timestamp - previous.timestamp
    if timeDiff < 400 then ⟨hist, m, .ok none⟩
    else
      let distanceChange := current.handsDistance - previous.handsDistance
      let horizontalChange := current.horizontalSpread - previous.horizontalSpread
      let verticalChange := current.verticalSpread - previous.verticalSpread
      if |distanceChange| < 0.045 then ⟨hist, m, .ok none⟩
      else
        let isHorizontalPrimary := decide (|horizontalChange| > |verticalChange| * 2)
        let isVerticalPrimary := decide (|verticalChange| > |horizontalChange| * 2)
        let avgX := 1 - (current.leftCenter.x + current.rightCenter.x) / 2
        let avgY := (current.leftCenter.y + current.rightCenter.y) / 2
        let baseConfidence : ℚ := 0.65
        let movementMagnitude := |distanceChange| * 8
        let temporalConsistency : ℚ := if 7 ≤ hist.length then 0.1 else 0
        let confidence := min 0.95 (baseConfidence + movementMagnitude + temporalConsistency)
        if confidence < 0.75 then ⟨hist, m, .ok none⟩
        else if distanceChange > 0 then
          if isVerticalPrimary then
            match shouldEmitGesture m "STRETCH_VERTICAL" now with
            | (false, m1) => ⟨hist, m1, .ok none⟩
            | (true, m1) =>
              ⟨hist, m1, .ok (some
                { type := .STRETCH_VERTICAL
                  handedness := "Both"
                  confidence := confidence
                  position := ⟨avgX, avgY⟩
                  timestamp := current.timestamp
                  direction := some "vertical"
                  distance := some current.handsDistance
                  distanceChange := some distanceChange })⟩
          else if isHorizontalPrimary then
            match shouldEmitGesture m "STRETCH_HORIZONTAL" now with
            | (false, m1) => ⟨hist, m1, .ok none⟩
            | (true, m1) =>
              ⟨hist, m1, .ok (some
                { type := .STRETCH_HORIZONTAL
                  handedness := "Both"
                  confidence := confidence
                  position := ⟨avgX, avgY⟩
                  timestamp := current.timestamp
                  direction := some "horizontal"
                  distance := some current.handsDistance
                  distanceChange := some distanceChange })⟩
          else ⟨hist, m, .ok none⟩
        else if distanceChange < 0 then
          if isVerticalPrimary then
            match shouldEmitGesture m "SHRINK_VERTICAL" now with
            | (false, m1) => ⟨hist, m1, .ok none⟩
            | (true, m1) =>
              ⟨hist, m1, .ok (some
                { type := .SHRINK_VERTICAL
                  handedness := "Both"
                  confidence := confidence
                  position := ⟨avgX, avgY⟩
                  timestamp := current.timestamp
                  direction := some "vertical"
                  distance := some current.handsDistance
                  distanceChange := some distanceChange })⟩
          else if isHorizontalPrimary then
            match shouldEmitGesture m "SHRINK_HORIZONTAL" now with
            | (false, m1) => ⟨hist, m1, .ok none⟩
            | (true, m1) =>
              ⟨hist, m1, .ok (some
                { type := .SHRINK_HORIZONTAL
                  handedness := "Both"
                  confidence := confidence
                  position := ⟨avgX, avgY⟩
                  timestamp := current.timestamp
                  direction := some "horizontal"
                  distance := some current.handsDistance
                  distanceChange := some distanceChange })⟩
          else ⟨hist, m, .ok none⟩
        else ⟨hist, m, .ok none⟩

/-- `analyzeTwoHands` (source lines 416-511).  The handedness labels are
extracted by the source (lines 419-420) but never used.  Clap branch when not
both pinching: middle-MCP distance against `0.12`; both-pinching branch:
push the pinch-center measurement (`HISTORY_SIZE = 7` ring) and classify a
direction once at least 3 measurements are buffered. -/
def analyzeTwoHands (hist : List Measurement) (m : List (String × ℤ))
    (leftHand rightHand : List Pt) (now : ℤ) : TwoHandResult :=
  match jsGet leftHand 4, jsGet leftHand 8, jsGet rightHand 4, jsGet rightHand 8 with
  | some leftThumbTip, some leftIndexTip, some rightThumbTip, some rightIndexTip =>
    let leftPinchDist := distQ sqrtQ leftThumbTip leftIndexTip
    let rightPinchDist := distQ sqrtQ rightThumbTip rightIndexTip
    let leftPinching := decide (leftPinchDist < 0.05)
    let rightPinching := decide (rightPinchDist < 0.05)
    if !leftPinching || !rightPinching then
      match jsGet leftHand 9, jsGet rightHand 9 with
      | some l9, some r9 =>
        let handsDistance := distQ sqrtQ ⟨l9.x, l9.y⟩ ⟨r9.x, r9.y⟩
        if handsDistance < 0.12 then
          match shouldEmitGesture m "CLAP" now with
          | (false, m1) => ⟨hist, m1, .ok none⟩
          | (true, m1) =>
            let baseConfidence : ℚ := 0.85
            let distanceScore := (0.12 - handsDistance) / 0.12
            let confidence := min 0.95 (baseConfidence + distanceScore * 0.1)
            if confidence < 0.75 then ⟨hist, m1, .ok none⟩
            else
              match jsGet leftHand 0, jsGet rightHand 0 with
              | some l0, some r0 =>
                ⟨hist, m1, .ok (some
                  { type := .CLAP
                    handedness := "Both"
                    confidence := confidence
                    position := ⟨1 - (l0.x + r0.x) / 2, (l0.y + r0.y) / 2⟩
                    timestamp := now
                    direction := none
                    distance := some handsDistance
                    distanceChange := none })⟩
              | _, _ => ⟨hist, m1, .error ()⟩
        else ⟨hist, m, .ok none⟩
      | _, _ => ⟨hist, m, .error ()⟩
    else
      let leftCenter : Pt :=
        ⟨(leftThumbTip.x + leftIndexTip.x) / 2, (leftThumbTip.y + leftIndexTip.y) / 2⟩
      let rightCenter : Pt :=
        ⟨(rightThumbTip.x + rightIndexTip.x) / 2, (rightThumbTip.y + rightIndexTip.y) / 2⟩
      let currentMeasurement : Measurement :=
        { timestamp := now
          leftCenter := leftCenter
          rightCenter := rightCenter
          handsDistance := distQ sqrtQ leftCenter rightCenter
          horizontalSpread := |leftCenter.x - rightCenter.x|
          verticalSpread := |leftCenter.y - rightCenter.y| }
      let hist1 := hist ++ [currentMeasurement]
      let hist2 := if 7 < hist1.length then hist1.tail else hist1
      if 3 ≤ hist2.length then detectTwoHandDirection hist2 m currentMeasurement now
      else ⟨hist2, m, .ok none⟩
  | _, _, _, _ => ⟨hist, m, .error ()⟩

/-- `detectGestures` (source lines 311-335): dispatch on the number of
reported hands.  The returned gesture is the one the source would hand to
`emitGesture`; `.error` models a `TypeError` escaping (the caller's frame
loop catches it, so state mutations made before the throw survive). -/
def detectGestures (s : EngineState) (results : FrameInput) (now : ℤ) :
    EngineState × Except Unit (Option Gesture) :=
  if results.multiHandLandmarks.length = 0 then (s, .ok none)
  else if results.multiHandLandmarks.length = 1 then
    match jsGet results.multiHandLandmarks 0 with
    | none => (s, .ok none)
    | some landmarks =>
      let handedness := (jsGet results.multiHandedness 0).getD "Unknown"
      let r := analyzeSingleHand sqrtQ s.handStabilityBuffer s.lastGestureTime
        landmarks handedness now
      ({ s with handStabilityBuffer := r.handStabilityBuffer
                lastGestureTime := r.lastGestureTime }, r.gesture)
  else if results.multiHandLandmarks.length = 2 then
    match jsGet results.multiHandLandmarks 0, jsGet results.multiHandLandmarks 1 with
    | some leftHand, some rightHand =>
      let r := analyzeTwoHands sqrtQ s.twoHandHistory s.lastGestureTime
        leftHand rightHand now
      ({ s with twoHandHistory := r.twoHandHistory
                lastGestureTime := r.lastGestureTime }, r.gesture)
    | _, _ => (s, .ok none)
  else (s, .ok none)

/-- One frame-processing pass: run `detectGestures` and apply `emitGesture`'s
final confidence filter (source lines 808-813).  The returned list holds the
events that reach the `callbacks.forEach` publication loop (empty on throw or
filter). -/
def processFrame (s : EngineState) (results : FrameInput) (now : ℤ) :
    EngineState × List Gesture :=
  match detectGestures sqrtQ s results now with
  | (s1, .ok (some g)) => if g.confidence < 0.75 then (s1, []) else (s1, [g])
  | (s1, _) => (s1, [])

/-- A whole timestamped run of frames against the engine, collecting every
published event in order. -/
def runEngine : EngineState → List (FrameInput × ℤ) → EngineState × List Gesture
  | s, [] => (s, [])
  | s, (f, t) :: rest =>
    let r1 := processFrame sqrtQ s f t
    let r2 := runEngine r1.1 rest
    (r2.1, r1.2 ++ r2.2)

end Engine

/-- The `callbacks.forEach(callback => callback(gesture))` loop of
`emitGesture` (source line 821): invoke subscribers in subscription order;
there is no `try`/`catch`, so the first throwing callback ends the loop and
the exception propagates.  Returns how many callbacks were invoked and the
outcome. -/
def invokeAll : List Callback → Gesture → ℕ × Except Unit Unit
  | [], _ => (0, .ok ())
  | cb :: rest, g =>
    match cb g with
    | .error e => (1, .error e)
    | .ok _ =>
      let r := invokeAll rest g
      (r.1 + 1, r.2)

/-- `emitGesture` (source lines 808-822): the final confidence filter, then
the unprotected delivery loop. -/
def emitGesture (callbacks : List Callback) (gesture : Gesture) :
    ℕ × Except Unit Unit :=
  if gesture.confidence < 0.75 then (0, .ok ())
  else invokeAll callbacks gesture

/-- `destroy` (source lines 831-852), restricted to the engine state: clears
every tracking buffer and the debounce map and drops the initialized flag.
The source does not touch `this.callbacks` here. -/
def destroy (s : EngineState) : EngineState :=
  { s with isInitialized := false
           gestureHistory := []
           twoHandHistory := []
           handStabilityBuffer := []
           lastGestureTime := []
           previousGestureData := [] }

/-- The debounce-map key under which a given event was admitted, as built at
the source's `shouldEmitGesture` call sites. -/
def eventKey (g : Gesture) : String :=
  match g.type with
  | .PINCH => "PINCH_" ++ g.handedness
  | .SPREAD => "SPREAD_" ++ g.handedness
  | .CLAP => "CLAP"
  | .STRETCH_VERTICAL => "STRETCH_VERTICAL"
  | .STRETCH_HORIZONTAL => "STRETCH_HORIZONTAL"
  | .SHRINK_VERTICAL => "SHRINK_VERTICAL"
  | .SHRINK_HORIZONTAL => "SHRINK_HORIZONTAL"

/-- The four directional gesture types. -/
def isDirectional (t : GType) : Bool :=
  match t with
  | .STRETCH_VERTICAL | .STRETCH_HORIZONTAL | .SHRINK_VERTICAL | .SHRINK_HORIZONTAL => true
  | _ => false

/-- The debounce map evolves within one frame pass only by recording the
current frame time under some keys. -/
def MapEvolve (mIn mOut : List (String × ℤ)) (now : ℤ) : Prop :=
  ∀ k, mapGet mOut k = mapGet mIn k ∨ mapGet mOut k = some now

/-- What holds of any gesture that reaches `emitGesture` in a pass at time
`now` with incoming debounce map `mIn` and outgoing map `mOut`. -/
def EmitOk (mIn mOut : List (String × ℤ)) (now : ℤ) (g : Gesture) : Prop :=
  g.timestamp = now ∧
  0.75 ≤ g.confidence ∧
  g.confidence ≤ 0.95 ∧
  (isDirectional g.type = true → g.confidence = 0.95) ∧
  mapGet mOut (eventKey g) = some now ∧
  400 ≤ now - (mapGet mIn (eventKey g)).getD 0

/-- The pairwise debouncing property of an emitted event list. -/
def DebPred (g1 g2 : Gesture) : Prop :=
  eventKey g1 = eventKey g2 → 400 ≤ |g2.timestamp - g1.timestamp|

/-- Invariant carried along a run: events so far are pairwise debounced, the
debounce map dominates every emitted timestamp for its key, and every map
entry is at most the time bound `T`. -/
def DebInv (out : List Gesture) (m : List (String × ℤ)) (T : ℤ) : Prop :=
  List.Pairwise DebPred out ∧
  (∀ g ∈ out, ∃ t, mapGet m (eventKey g) = some t ∧ g.timestamp ≤ t) ∧
  (∀ k t, mapGet m k = some t → t ≤ T)

/-- Subscriber that returns normally. -/
def cbOk : Callback := fun _ => .ok ()

/-- Subscriber that throws. -/
def cbThrow : Callback := fun _ => .error ()

/-- The CLAP event of the clap witness run (both middle-MCP landmarks
coincide, so the distance is 0 and the confidence caps at 0.95). -/
def clapEvent : Gesture :=
  { type := .CLAP
    handedness := "Both"
    confidence := 0.95
    position := ⟨1, 0⟩
    timestamp := 1000
    direction := none
    distance := some 0
    distanceChange := none }

/-- An engine state with one subscriber, for the destroy counterexample. -/
def s8 : EngineState := { initialState with callbacks := [cbOk] }

/-- A 10-landmark hand (indices 0-9) whose thumb tip (index 4) is far from
the index tip, so it is not pinching; used for the clap witness run. -/
def clapHand : List Pt :=
  [⟨0, 0⟩, ⟨0, 0⟩, ⟨0, 0⟩, ⟨0, 0⟩, ⟨1, 0⟩, ⟨0, 0⟩, ⟨0, 0⟩, ⟨0, 0⟩, ⟨0, 0⟩, ⟨0, 0⟩]

/-- A frame with two coincident non-pinching hands: a clap. -/
def clapFrame : FrameInput := ⟨[clapHand, clapHand], ["Left", "Right"]⟩

/-- A square-root function agreeing with the exact square root on the three
radicands arising in the stretch witness run (0, 1/25, 49/100). -/
def stretchSqrt : ℚ → ℚ :=
  fun x => if x = 1/25 then 1/5 else if x = 49/100 then 7/10 else 0

/-- Pinching hand (thumb tip = index tip) at pinch-center `⟨1/5, 1/2⟩`. -/
def stretchHand1L : List Pt := List.replicate 9 ⟨1/5, 1/2⟩

/-- Pinching hand at pinch-center `⟨2/5, 1/2⟩`. -/
def stretchHand1R : List Pt := List.replicate 9 ⟨2/5, 1/2⟩

/-- Pinching hand at pinch-center `⟨1/10, 1/2⟩`. -/
def stretchHand3L : List Pt := List.replicate 9 ⟨1/10, 1/2⟩

/-- Pinching hand at pinch-center `⟨4/5, 1/2⟩`. -/
def stretchHand3R : List Pt := List.replicate 9 ⟨4/5, 1/2⟩

/-- Three frames of two pinching hands that separate horizontally by 1/2
between the first and third frame, 1000 ms apart. -/
def stretchFrames : List (FrameInput × ℤ) :=
  [(⟨[stretchHand1L, stretchHand1R], ["Left", "Right"]⟩, 0),
   (⟨[stretchHand1L, stretchHand1R], ["Left", "Right"]⟩, 100),
   (⟨[stretchHand3L, stretchHand3R], ["Left", "Right"]⟩, 1000)]

/-- The event the stretch witness run publishes on its third frame. -/
def stretchEvent : Gesture :=
  { type := .STRETCH_HORIZONTAL
    handedness := "Both"
    confidence := 0.95
    position := ⟨11/20, 1/2⟩
    timestamp := 1000
    direction := some "horizontal"
    distance := some (7/10)
    distanceChange := some (1/2) }

/-- First buffered measurement of the stretch witness scenario. -/
def m1w : Measurement := ⟨0, ⟨1/5, 1/2⟩, ⟨2/5, 1/2⟩, 1/5, 1/5, 0⟩

/-- Second buffered measurement of the stretch witness scenario. -/
def m2w : Measurement := ⟨100, ⟨1/5, 1/2⟩, ⟨2/5, 1/2⟩, 1/5, 1/5, 0⟩

/-- The measurement the stretch witness frame pushes. -/
def m3w : Measurement := ⟨1000, ⟨1/10, 1/2⟩, ⟨4/5, 1/2⟩, 7/10, 7/10, 0⟩

/-- Engine state holding two buffered two-hand measurements. -/
def s3 : EngineState := { initialState with twoHandHistory := [m1w, m2w] }

/-- Square-root stand-in for the spread scenario: 0 on the zero radicand
(the coincident buffered wrist positions), 3/10 on every other radicand
(the thumb–index and index–pinky squared distances are both 8/25, whose
exact square root is irrational; 3/10 stands for the value the source's
floating-point `Math.sqrt` would feed onward, matching the spec's 0.30). -/
def spreadSqrt : ℚ → ℚ := fun x => if x = 0 then 0 else 3/10

/-- A 21-landmark hand: every landmark at `⟨1/2, 1/2⟩` except the index tip
(landmark 8) at `⟨1/10, 1/10⟩`, so the hand is spread but not pinching. -/
def spreadHand : List Pt :=
  [⟨1/2, 1/2⟩, ⟨1/2, 1/2⟩, ⟨1/2, 1/2⟩, ⟨1/2, 1/2⟩, ⟨1/2, 1/2⟩,
   ⟨1/2, 1/2⟩, ⟨1/2, 1/2⟩, ⟨1/2, 1/2⟩, ⟨1/10, 1/10⟩, ⟨1/2, 1/2⟩,
   ⟨1/2, 1/2⟩, ⟨1/2, 1/2⟩, ⟨1/2, 1/2⟩, ⟨1/2, 1/2⟩, ⟨1/2, 1/2⟩,
   ⟨1/2, 1/2⟩, ⟨1/2, 1/2⟩, ⟨1/2, 1/2⟩, ⟨1/2, 1/2⟩, ⟨1/2, 1/2⟩,
   ⟨1/2, 1/2⟩]

/-- Stability buffer with three coincident wrist samples. -/
def spreadBuf : List StabEntry :=
  [⟨some ⟨1/2, 1/2⟩, 0⟩, ⟨some ⟨1/2, 1/2⟩, 0⟩, ⟨some ⟨1/2, 1/2⟩, 0⟩]

/-- Engine state whose stability buffer is one sample short of full. -/
def s7 : EngineState := { initialState with handStabilityBuffer := spreadBuf }

/-- The single-hand spread frame. -/
def f7 : FrameInput := ⟨[spreadHand], ["Right"]⟩

/-- Stability buffer with three coincident defined wrist samples, one short
of full: the next push makes it full and (with a zero square root on the
zero radicand) stable. -/
def c6buf : List StabEntry :=
  [⟨some ⟨0, 0⟩, 0⟩, ⟨some ⟨0, 0⟩, 0⟩, ⟨some ⟨0, 0⟩, 0⟩]

theorem mapGet_mapSet_self (m : List (String × ℤ)) (k : String) (v : ℤ) :
    mapGet (mapSet m k v) k = some v := by
  simp [mapGet, mapSet]

theorem mapGet_mapSet_other (m : List (String × ℤ)) (k k' : String) (v : ℤ)
    (h : k' ≠ k) : mapGet (mapSet m k v) k' = mapGet m k' := by
  simp only [mapGet, mapSet]
  rw [if_neg (fun h' => h h'.symm)]

theorem mapEvolve_refl (m : List (String × ℤ)) (now : ℤ) : MapEvolve m m now :=
  fun _ => Or.inl rfl

theorem mapEvolve_set (m : List (String × ℤ)) (key : String) (now : ℤ) :
    MapEvolve m (mapSet m key now) now := by
  intro k
  by_cases h : k = key
  · subst h
    exact Or.inr (mapGet_mapSet_self m k now)
  · exact Or.inl (mapGet_mapSet_other m key k now h)

theorem shouldEmitGesture_spec (m : List (String × ℤ)) (k : String) (now : ℤ)
    (b : Bool) (m' : List (String × ℤ)) (h : shouldEmitGesture m k now = (b, m')) :
    MapEvolve m m' now ∧
      (b = true → mapGet m' k = some now ∧ 400 ≤ now - (mapGet m k).getD 0) := by
  simp only [shouldEmitGesture] at h
  split at h
  · obtain ⟨rfl, rfl⟩ := Prod.mk.injEq .. ▸ h
    exact ⟨mapEvolve_refl m now, by simp⟩
  · obtain ⟨rfl, rfl⟩ := Prod.mk.injEq .. ▸ h
    refine ⟨mapEvolve_set m k now, fun _ => ⟨mapGet_mapSet_self m k now, ?_⟩⟩
    omega

theorem calculateConfidence_pinch : calculateConfidence 0.8 true true = 0.95 := by
  norm_num [calculateConfidence, min_def]

theorem calculateConfidence_spread : calculateConfidence 0.75 true true = 9/10 := by
  norm_num [calculateConfidence, min_def]

theorem directional_conf (dc t : ℚ) (hdc : 0.045 ≤ |dc|) (ht : 0 ≤ t) :
    min (0.95 : ℚ) (0.65 + |dc| * 8 + t) = 0.95 :=
  min_eq_left (by linarith)

theorem analyzeSingleHand_spec (sqrtQ : ℚ → ℚ) (buf : List StabEntry)
    (m : List (String × ℤ)) (lms : List Pt) (hd : String) (now : ℤ)
    (r : SingleHandResult) (hr : analyzeSingleHand sqrtQ buf m lms hd now = r) :
    MapEvolve m r.lastGestureTime now ∧
      ∀ g, r.gesture = .ok (some g) → EmitOk m r.lastGestureTime now g := by
  simp only [analyzeSingleHand] at hr
  split at hr
  · subst hr
    exact ⟨mapEvolve_refl m now, fun g hg => by simp at hg⟩
  · subst hr
    exact ⟨mapEvolve_refl m now, fun g hg => by simp at hg⟩
  · split at hr
    · split at hr
      · split at hr
        · -- pinch geometry satisfied
          split at hr
          · -- debounce rejected
            rename_i heq
            subst hr
            exact ⟨(shouldEmitGesture_spec _ _ _ _ _ heq).1,
              fun g hg => by simp at hg⟩
          · -- debounce admitted
            rename_i heq
            split at hr
            · subst hr
              exact ⟨(shouldEmitGesture_spec _ _ _ _ _ heq).1,
                fun g hg => by simp at hg⟩
            · rename_i hconf
              subst hr
              refine ⟨(shouldEmitGesture_spec _ _ _ _ _ heq).1, fun g hg => ?_⟩
              rw [Except.ok.injEq, Option.some.injEq] at hg
              subst hg
              refine ⟨rfl, ?_, ?_, ?_, ?_, ?_⟩
              · exact le_of_not_lt hconf
              · exact le_of_eq calculateConfidence_pinch
              · intro hdir
                simp [isDirectional] at hdir
              · simpa [eventKey] using
                  ((shouldEmitGesture_spec _ _ _ _ _ heq).2 rfl).1
              · simpa [eventKey] using
                  ((shouldEmitGesture_spec _ _ _ _ _ heq).2 rfl).2
        · -- not a pinch; spread branch
          split at hr
          · split at hr
            · rename_i heq
              subst hr
              exact ⟨(shouldEmitGesture_spec _ _ _ _ _ heq).1,
                fun g hg => by simp at hg⟩
            · rename_i heq
              split at hr
              · subst hr
                exact ⟨(shouldEmitGesture_spec _ _ _ _ _ heq).1,
                  fun g hg => by simp at hg⟩
              · rename_i hconf
                split at hr
                · rename_i wrist hwrist
                  subst hr
                  refine ⟨(shouldEmitGesture_spec _ _ _ _ _ heq).1, fun g hg => ?_⟩
                  rw [Except.ok.injEq, Option.some.injEq] at hg
                  subst hg
                  refine ⟨rfl, ?_, ?_, ?_, ?_, ?_⟩
                  · exact le_of_not_lt hconf
                  · show calculateConfidence 0.75 true true ≤ 0.95
                    rw [calculateConfidence_spread]
                    norm_num
                  · intro hdir
                    simp [isDirectional] at hdir
                  · simpa [eventKey] using
                      ((shouldEmitGesture_spec _ _ _ _ _ heq).2 rfl).1
                  · simpa [eventKey] using
                      ((shouldEmitGesture_spec _ _ _ _ _ heq).2 rfl).2
                · subst hr
                  exact ⟨(shouldEmitGesture_spec _ _ _ _ _ heq).1,
                    fun g hg => by simp at hg⟩
          · subst hr
            exact ⟨mapEvolve_refl m now, fun g hg => by simp at hg⟩
      · subst hr
        exact ⟨mapEvolve_refl m now, fun g hg => by simp at hg⟩
    · subst hr
      exact ⟨mapEvolve_refl m now, fun g hg => by simp at hg⟩

theorem no_gesture_ok_none {P : Gesture → Prop} :
    ∀ g, (Except.ok none : Except Unit (Option Gesture)) = .ok (some g) → P g := by
  intro g hg
  simp at hg

theorem no_gesture_error {P : Gesture → Prop} (e : Unit) :
    ∀ g, (Except.error e : Except Unit (Option Gesture)) = .ok (some g) → P g := by
  intro g hg
  simp at hg

theorem detectTwoHandDirection_spec (hist : List Measurement)
    (m : List (String × ℤ)) (current : Measurement) (now : ℤ)
    (hts : current.timestamp = now) (r : TwoHandResult)
    (hr : detectTwoHandDirection hist m current now = r) :
    MapEvolve m r.lastGestureTime now ∧
      ∀ g, r.gesture = .ok (some g) →
        EmitOk m r.lastGestureTime now g ∧ isDirectional g.type = true := by
  simp only [detectTwoHandDirection] at hr
  repeat' split at hr
  all_goals subst hr
  all_goals try exact ⟨mapEvolve_refl m now, no_gesture_ok_none⟩
  all_goals try exact ⟨mapEvolve_refl m now, no_gesture_error ()⟩
  all_goals try exact ⟨(shouldEmitGesture_spec _ _ _ _ _ (by assumption)).1,
    no_gesture_ok_none⟩
  all_goals
    refine ⟨(shouldEmitGesture_spec _ _ _ _ _ (by assumption)).1, fun g hg => ?_⟩
  all_goals rw [Except.ok.injEq, Option.some.injEq] at hg
  all_goals subst hg
  all_goals
    refine ⟨⟨hts, le_of_not_lt (by assumption), min_le_left _ _, ?_, ?_, ?_⟩, rfl⟩
  all_goals try exact fun _ =>
    directional_conf _ _ (not_lt.mp (by assumption)) (by norm_num)
  all_goals try simpa [eventKey] using
    ((shouldEmitGesture_spec _ _ _ _ _ (by assumption)).2 rfl).1
  all_goals simpa [eventKey] using
    ((shouldEmitGesture_spec _ _ _ _ _ (by assumption)).2 rfl).2

theorem analyzeTwoHands_spec (sqrtQ : ℚ → ℚ) (hist : List Measurement)
    (m : List (String × ℤ)) (L R : List Pt) (now : ℤ) (r : TwoHandResult)
    (hr : analyzeTwoHands sqrtQ hist m L R now = r) :
    MapEvolve m r.lastGestureTime now ∧
      ∀ g, r.gesture = .ok (some g) → EmitOk m r.lastGestureTime now g := by
  simp only [analyzeTwoHands] at hr
  repeat' split at hr
  all_goals try (subst hr; exact ⟨mapEvolve_refl m now, no_gesture_ok_none⟩)
  all_goals try (subst hr; exact ⟨mapEvolve_refl m now, no_gesture_error ()⟩)
  all_goals try (subst hr; exact ⟨(shouldEmitGesture_spec _ _ _ _ _ (by assumption)).1, no_gesture_ok_none⟩)
  all_goals try (subst hr; exact ⟨(shouldEmitGesture_spec _ _ _ _ _ (by assumption)).1, no_gesture_error ()⟩)
  all_goals try (exact ⟨(detectTwoHandDirection_spec _ _ _ _ rfl r hr).1, fun g hg => ((detectTwoHandDirection_spec _ _ _ _ rfl r hr).2 g hg).1⟩)
  all_goals subst hr
  all_goals
    refine ⟨(shouldEmitGesture_spec _ _ _ _ _ (by assumption)).1, fun g hg => ?_⟩
  all_goals rw [Except.ok.injEq, Option.some.injEq] at hg
  all_goals subst hg
  all_goals
    refine ⟨rfl, le_of_not_lt (by assumption), min_le_left _ _, ?_, ?_, ?_⟩
  all_goals try exact fun hdir => nomatch hdir
  all_goals try simpa [eventKey] using
    ((shouldEmitGesture_spec _ _ _ _ _ (by assumption)).2 rfl).1
  all_goals simpa [eventKey] using
    ((shouldEmitGesture_spec _ _ _ _ _ (by assumption)).2 rfl).2

theorem detectGestures_spec (sqrtQ : ℚ → ℚ) (s : EngineState) (f : FrameInput)
    (now : ℤ) (s' : EngineState) (eg : Except Unit (Option Gesture))
    (h : detectGestures sqrtQ s f now = (s', eg)) :
    MapEvolve s.lastGestureTime s'.lastGestureTime now ∧
      ∀ g, eg = .ok (some g) → EmitOk s.lastGestureTime s'.lastGestureTime now g := by
  simp only [detectGestures] at h
  repeat' split at h
  all_goals injection h with h1 h2
  all_goals subst h1
  all_goals subst h2
  all_goals try exact ⟨mapEvolve_refl _ now, no_gesture_ok_none⟩
  all_goals try exact ⟨(analyzeSingleHand_spec _ _ _ _ _ _ _ rfl).1,
    fun g hg => (analyzeSingleHand_spec _ _ _ _ _ _ _ rfl).2 g hg⟩
  all_goals exact ⟨(analyzeTwoHands_spec _ _ _ _ _ _ _ rfl).1,
    fun g hg => (analyzeTwoHands_spec _ _ _ _ _ _ _ rfl).2 g hg⟩

theorem processFrame_spec (sqrtQ : ℚ → ℚ) (s : EngineState) (f : FrameInput)
    (now : ℤ) (s' : EngineState) (evs : List Gesture)
    (h : processFrame sqrtQ s f now = (s', evs)) :
    MapEvolve s.lastGestureTime s'.lastGestureTime now ∧
      (evs = [] ∨ ∃ g, evs = [g] ∧
        EmitOk s.lastGestureTime s'.lastGestureTime now g) := by
  simp only [processFrame] at h
  split at h
  · split at h
    · injection h with h1 h2
      subst h1
      subst h2
      exact ⟨(detectGestures_spec _ _ _ _ _ _ (by assumption)).1, Or.inl rfl⟩
    · injection h with h1 h2
      subst h1
      subst h2
      refine ⟨(detectGestures_spec _ _ _ _ _ _ (by assumption)).1, Or.inr ⟨_, rfl, ?_⟩⟩
      exact (detectGestures_spec _ _ _ _ _ _ (by assumption)).2 _ rfl
  · injection h with h1 h2
    subst h1
    subst h2
    exact ⟨(detectGestures_spec _ _ _ _ _ _ (by assumption)).1, Or.inl rfl⟩

theorem runEngine_conf (sqrtQ : ℚ → ℚ) (frames : List (FrameInput × ℤ)) :
    ∀ s : EngineState, ∀ g ∈ (runEngine sqrtQ s frames).2,
      (0.75 ≤ g.confidence ∧ g.confidence ≤ 0.95) ∧
        (isDirectional g.type = true → g.confidence = 0.95) := by
  induction frames with
  | nil =>
    intro s g hg
    simp [runEngine] at hg
  | cons ft rest ih =>
    intro s g hg
    obtain ⟨f, t⟩ := ft
    simp only [runEngine] at hg
    rw [List.mem_append] at hg
    rcases hg with hg | hg
    · have hpf : processFrame sqrtQ s f t =
          ((processFrame sqrtQ s f t).1, (processFrame sqrtQ s f t).2) := rfl
      obtain ⟨hme, hevs⟩ := processFrame_spec sqrtQ s f t _ _ hpf
      rcases hevs with h0 | ⟨g0, hg0, hemit⟩
      · rw [h0] at hg
        simp at hg
      · rw [hg0] at hg
        simp at hg
        subst hg
        obtain ⟨_, hlo, hhi, hdir, _, _⟩ := hemit
        exact ⟨⟨hlo, hhi⟩, hdir⟩
    · exact ih _ g hg

theorem debInv_step (sqrtQ : ℚ → ℚ) (s : EngineState) (f : FrameInput)
    (now : ℤ) (s' : EngineState) (evs : List Gesture) (out : List Gesture)
    (T : ℤ) (h : processFrame sqrtQ s f now = (s', evs))
    (hinv : DebInv out s.lastGestureTime T) (hT : T ≤ now) :
    DebInv (out ++ evs) s'.lastGestureTime now := by
  obtain ⟨hme, hevs⟩ := processFrame_spec _ _ _ _ _ _ h
  obtain ⟨hpw, hmap, hbound⟩ := hinv
  rcases hevs with rfl | ⟨g, rfl, hemit⟩
  · refine ⟨by simpa using hpw, ?_, ?_⟩
    · intro g hg
      obtain ⟨t, hget, hle⟩ := hmap g (by simpa using hg)
      rcases hme (eventKey g) with he | he
      · exact ⟨t, by rw [he]; exact hget, hle⟩
      · exact ⟨now, he, le_trans hle (le_trans (hbound _ _ hget) hT)⟩
    · intro k t hk
      rcases hme k with he | he
      · exact le_trans (hbound k t (by rw [← he]; exact hk)) hT
      · rw [he] at hk
        injection hk with h'
        omega
  · obtain ⟨hts, hlo, hhi, hdir, hout, hadm⟩ := hemit
    refine ⟨?_, ?_, ?_⟩
    · rw [List.pairwise_append]
      refine ⟨hpw, List.pairwise_singleton _ _, ?_⟩
      intro a ha b hb hkey
      simp only [List.mem_singleton] at hb
      subst hb
      obtain ⟨ta, hgeta, hlea⟩ := hmap a ha
      have hta : ta ≤ T := hbound _ _ hgeta
      rw [← hkey, hgeta, Option.getD_some] at hadm
      rw [hts, abs_of_nonneg (by omega)]
      omega
    · intro a ha
      rw [List.mem_append] at ha
      rcases ha with ha | ha
      · obtain ⟨ta, hgeta, hlea⟩ := hmap a ha
        rcases hme (eventKey a) with he | he
        · exact ⟨ta, by rw [he]; exact hgeta, hlea⟩
        · exact ⟨now, he, le_trans hlea (le_trans (hbound _ _ hgeta) hT)⟩
      · simp only [List.mem_singleton] at ha
        subst ha
        exact ⟨now, hout, le_of_eq hts⟩
    · intro k t hk
      rcases hme k with he | he
      · exact le_trans (hbound k t (by rw [← he]; exact hk)) hT
      · rw [he] at hk
        injection hk with h'
        omega

theorem runEngine_debounce (sqrtQ : ℚ → ℚ) :
    ∀ (frames : List (FrameInput × ℤ)) (s : EngineState) (out : List Gesture)
      (T : ℤ), DebInv out s.lastGestureTime T →
      List.Chain' (· ≤ ·) (T :: frames.map Prod.snd) →
      List.Pairwise DebPred (out ++ (runEngine sqrtQ s frames).2) := by
  intro frames
  induction frames with
  | nil =>
    intro s out T hinv _
    simpa [runEngine] using hinv.1
  | cons ft rest ih =>
    intro s out T hinv hch
    obtain ⟨f, t⟩ := ft
    rw [List.map_cons, List.chain'_cons] at hch
    obtain ⟨hTt, hch2⟩ := hch
    have hpf : processFrame sqrtQ s f t =
        ((processFrame sqrtQ s f t).1, (processFrame sqrtQ s f t).2) := rfl
    have hstep := debInv_step sqrtQ s f t _ _ out T hpf hinv hTt
    have hrec := ih (processFrame sqrtQ s f t).1
      (out ++ (processFrame sqrtQ s f t).2) t hstep hch2
    simpa [runEngine, List.append_assoc] using hrec

theorem jsGet_none (l : List α) (n : ℕ) (h : l.length ≤ n) : jsGet l n = none := by
  induction l generalizing n with
  | nil => cases n <;> rfl
  | cons a rest ih =>
    cases n with
    | zero => simp at h
    | succ k =>
      simp only [List.length_cons, Nat.succ_le_succ_iff] at h
      exact ih k h

theorem checkHandStability_fst (sqrtQ : ℚ → ℚ) (buf : List StabEntry)
    (lms : List Pt) (now : ℤ) :
    (checkHandStability sqrtQ buf lms now).1 = pushTrim buf (jsGet lms 0) now := by
  simp only [checkHandStability]
  split
  · rfl
  · split <;> rfl

theorem pushTrim_length_le (buf : List StabEntry) (w : Option Pt) (now : ℤ)
    (h : buf.length ≤ 4) : (pushTrim buf w now).length ≤ 4 := by
  simp only [pushTrim]
  split <;> simp_all

theorem pushTrim_isSome (buf : List StabEntry) (w : Pt) (now : ℤ)
    (h : ∀ e ∈ buf, e.position.isSome) :
    ∀ e ∈ pushTrim buf (some w) now, e.position.isSome := by
  intro e he
  simp only [pushTrim] at he
  split at he
  · rcases List.mem_append.mp (List.mem_of_mem_tail he) with h1 | h1
    · exact h e h1
    · simp at h1
      subst h1
      rfl
  · rcases List.mem_append.mp he with h1 | h1
    · exact h e h1
    · simp at h1
      subst h1
      rfl

theorem jitterFold_lt (sqrtQ : ℚ → ℚ) (c : ℚ) (l : List StabEntry) :
    ∀ acc : ℚ, (∀ e ∈ l, e.position.isSome) →
      ∃ mj, jitterFold sqrtQ acc l = .ok mj ∧
        (mj < c ↔ acc < c ∧
          List.Chain' (fun a b => ∃ pa pb, a.position = some pa ∧
            b.position = some pb ∧ distQ sqrtQ pa pb < c) l) := by
  induction l with
  | nil =>
    intro acc _
    exact ⟨acc, rfl, by simp [jitterFold]⟩
  | cons a rest ih =>
    intro acc hsome
    cases rest with
    | nil => exact ⟨acc, rfl, by simp [jitterFold]⟩
    | cons b rest2 =>
      obtain ⟨pa, hpa⟩ := Option.isSome_iff_exists.mp (hsome a (by simp))
      obtain ⟨pb, hpb⟩ := Option.isSome_iff_exists.mp (hsome b (by simp))
      have hstep : jitterFold sqrtQ acc (a :: b :: rest2) =
          jitterFold sqrtQ (max acc (distQ sqrtQ pa pb)) (b :: rest2) := by
        simp [jitterFold, distO, hpa, hpb]
      obtain ⟨mj, hmj, hiff⟩ :=
        ih (max acc (distQ sqrtQ pa pb)) (fun e he => hsome e (by simp [he]))
      refine ⟨mj, by rw [hstep]; exact hmj, ?_⟩
      rw [hiff, List.chain'_cons, max_lt_iff]
      constructor
      · rintro ⟨⟨h1, h2⟩, hch⟩
        exact ⟨h1, ⟨pa, pb, hpa, hpb, h2⟩, hch⟩
      · rintro ⟨h1, ⟨pa', pb', hpa', hpb', hd'⟩, hch⟩
        rw [hpa] at hpa'
        rw [hpb] at hpb'
        injection hpa' with e1
        injection hpb' with e2
        subst e1
        subst e2
        exact ⟨⟨h1, hd'⟩, hch⟩

theorem eventKey_congr {g1 g2 : Gesture} (h1 : g1.type = g2.type)
    (h2 : g1.handedness = g2.handedness) : eventKey g1 = eventKey g2 := by
  unfold eventKey
  rw [h1, h2]

theorem invokeAll_append (pre : List Callback) (cb : Callback)
    (post : List Callback) (g : Gesture) (hpre : ∀ c ∈ pre, c g = .ok ())
    (hcb : cb g = .error ()) :
    invokeAll (pre ++ cb :: post) g = (pre.length + 1, .error ()) := by
  induction pre with
  | nil => simp [invokeAll, hcb]
  | cons c rest ih =>
    have hc : c g = .ok () := hpre c (by simp)
    have ih2 := ih (fun c' hc' => hpre c' (by simp [hc']))
    simp [invokeAll, hc, ih2]

/-- C1: for every gesture event delivered to subscribers, its confidence lies
in the closed interval [0.75, 0.95]: every emission path caps the confidence
with `Math.min(0.95, ...)`, and `emitGesture` silently discards any gesture
whose confidence is below `MIN_CONFIDENCE_THRESHOLD = 0.75`. -/
theorem C1_confidence_bounds (sqrtQ : ℚ → ℚ) (frames : List (FrameInput × ℤ))
    (g : Gesture) (hg : g ∈ (runEngine sqrtQ initialState frames).2) :
    0.75 ≤ g.confidence ∧ g.confidence ≤ 0.95 :=
  (runEngine_conf sqrtQ frames initialState g hg).1

/-- C2: any two events delivered to subscribers that share the same
`(type, handedness)` key are at least `GESTURE_DEBOUNCE_TIME = 400` ms apart,
for every run whose frame timestamps are nonnegative and nondecreasing. -/
theorem C2_debounce (sqrtQ : ℚ → ℚ) (frames : List (FrameInput × ℤ))
    (hmono : List.Chain' (· ≤ ·) ((0 : ℤ) :: frames.map Prod.snd)) :
    List.Pairwise
      (fun g1 g2 => g1.type = g2.type → g1.handedness = g2.handedness →
        400 ≤ |g2.timestamp - g1.timestamp|)
      (runEngine sqrtQ initialState frames).2 := by
  have h := runEngine_debounce sqrtQ frames initialState [] 0
    ⟨List.Pairwise.nil, by simp, by simp [mapGet, initialState]⟩ hmono
  rw [List.nil_append] at h
  exact h.imp fun hab h1 h2 => hab (eventKey_congr h1 h2)

/-- C10: every emitted directional event (`STRETCH_VERTICAL`,
`STRETCH_HORIZONTAL`, `SHRINK_VERTICAL`, `SHRINK_HORIZONTAL`) has confidence
exactly 0.95: the emission precondition `|distanceChange| ≥ 0.045` forces the
pre-cap confidence `0.65 + |distanceChange| * 8 + bonus` to at least 1.01, so
the `Math.min(0.95, ...)` cap always applies. -/
theorem C10_directional_conf (sqrtQ : ℚ → ℚ) (frames : List (FrameInput × ℤ))
    (g : Gesture) (hg : g ∈ (runEngine sqrtQ initialState frames).2)
    (hdir : isDirectional g.type = true) : g.confidence = 0.95 :=
  (runEngine_conf sqrtQ frames initialState g hg).2 hdir

/-- C9: the engine is deterministic: running one timestamped frame sequence
against two freshly constructed engine states yields identical event
sequences (and identical final states).  In the embedding the only ambient
input of the source, `Date.now()`, is the per-frame timestamp, so the run is
a pure function of the frames. -/
theorem C9_determinism (sqrtQ : ℚ → ℚ) (frames : List (FrameInput × ℤ))
    (s1 s2 : EngineState) (h1 : s1 = initialState) (h2 : s2 = initialState) :
    runEngine sqrtQ s1 frames = runEngine sqrtQ s2 frames := by
  subst h1
  subst h2
  rfl

/-- C4: after the wrist position is pushed, a stability buffer holding fewer
than `HAND_STABILITY_FRAMES = 4` entries yields the verdict `unstable`;
with 4 entries the verdict is `stable` iff every consecutive displacement of
the buffered wrist positions is `< MAX_HAND_JITTER = 0.02` (equivalently,
the maximum displacement is); and an `unstable` verdict makes
`analyzeSingleHand` return no gesture, leaving the debounce map untouched,
regardless of pinch/spread geometry. -/
theorem C4_stability (sqrtQ : ℚ → ℚ) (buf : List StabEntry) (lms : List Pt)
    (now : ℤ) (w : Pt) (m : List (String × ℤ)) (hd : String)
    (buf' : List StabEntry) (verdict : Except Unit Bool)
    (hw : jsGet lms 0 = some w)
    (hbuf : ∀ e ∈ buf, e.position.isSome)
    (hlen : buf.length ≤ 4)
    (hr : checkHandStability sqrtQ buf lms now = (buf', verdict)) :
    (buf'.length < 4 → verdict = .ok false) ∧
    (4 ≤ buf'.length →
      (verdict = .ok true ↔
        List.Chain' (fun a b => ∃ pa pb, a.position = some pa ∧
          b.position = some pb ∧ distQ sqrtQ pa pb < 0.02) buf')) ∧
    (verdict = .ok false →
      analyzeSingleHand sqrtQ buf m lms hd now = ⟨buf', m, .ok none⟩) := by
  have hr0 := hr
  have hsome2 : ∀ e ∈ pushTrim buf (jsGet lms 0) now, e.position.isSome := by
    rw [hw]
    exact pushTrim_isSome buf w now hbuf
  have hlen2 : (pushTrim buf (jsGet lms 0) now).length ≤ 4 :=
    pushTrim_length_le buf (jsGet lms 0) now hlen
  simp only [checkHandStability] at hr
  split at hr
  · -- short buffer
    rename_i hshort
    injection hr with e1 e2
    subst e1
    subst e2
    refine ⟨fun _ => rfl, fun hge => absurd hge (by omega), fun _ => ?_⟩
    simp only [analyzeSingleHand]
    rw [hr0]
  · -- full buffer
    rename_i hfull
    have hlen4 : (pushTrim buf (jsGet lms 0) now).length = 4 := by omega
    rw [hlen4] at hr
    simp only [Nat.sub_self, List.drop_zero] at hr
    obtain ⟨mj, hmj, hiff⟩ :=
      jitterFold_lt sqrtQ 0.02 (pushTrim buf (jsGet lms 0) now) 0 hsome2
    rw [hmj] at hr
    injection hr with e1 e2
    subst e1
    subst e2
    refine ⟨fun hlt => absurd hlt (by omega), fun _ => ?_, fun hv => ?_⟩
    · constructor
      · intro hok
        injection hok with e3
        have := of_decide_eq_true e3
        exact (hiff.mp this).2
      · intro hch
        have : mj < 0.02 := hiff.mpr ⟨by norm_num, hch⟩
        rw [decide_eq_true this]
    · simp only [analyzeSingleHand]
      rw [hr0, hv]

/-- C6 (counterexample): a hand with fewer than 21 landmarks is *not*
processed without side effects: the wrist entry is still pushed into the
stability buffer, so the claimed "no state change" is false already on a
1-landmark hand against an empty buffer. -/
theorem C6_counterexample :
    ([(⟨0, 0⟩ : Pt)] : List Pt).length < 21 ∧
      (analyzeSingleHand (fun x => x) [] [] [⟨0, 0⟩] "Left" 0).handStabilityBuffer
        ≠ ([] : List StabEntry) := by
  refine ⟨by decide, ?_⟩
  simp [analyzeSingleHand, checkHandStability, pushTrim, jsGet]

/-- C6 (amended): for a hand with fewer than 21 landmarks the single-hand
classifier never returns a gesture and never touches the debounce map, but
it does mutate state — the wrist slot is pushed into the stability buffer —
and the outcome is tied to the stability verdict: when the (post-push)
verdict is `stable` the access to the missing landmarks raises a `TypeError`
(the gesture result is `.error ()`), and when the verdict is `unstable` the
classifier returns `none`; in every case no gesture is produced. -/
theorem C6_short_hand (sqrtQ : ℚ → ℚ) (buf : List StabEntry)
    (m : List (String × ℤ)) (lms : List Pt) (hd : String) (now : ℤ)
    (hshort : lms.length < 21) :
    (analyzeSingleHand sqrtQ buf m lms hd now).lastGestureTime = m ∧
    (analyzeSingleHand sqrtQ buf m lms hd now).handStabilityBuffer =
      pushTrim buf (jsGet lms 0) now ∧
    ((checkHandStability sqrtQ buf lms now).2 = .ok true →
      (analyzeSingleHand sqrtQ buf m lms hd now).gesture = .error ()) ∧
    ((checkHandStability sqrtQ buf lms now).2 = .ok false →
      (analyzeSingleHand sqrtQ buf m lms hd now).gesture = .ok none) ∧
    ((analyzeSingleHand sqrtQ buf m lms hd now).gesture = .ok none ∨
      (analyzeSingleHand sqrtQ buf m lms hd now).gesture = .error ()) := by
  have h20 : jsGet lms 20 = none := jsGet_none lms 20 (by omega)
  have hfst := checkHandStability_fst sqrtQ buf lms now
  simp only [analyzeSingleHand]
  split
  · -- TypeError inside the stability check itself
    rename_i buf1 e heq
    rw [heq] at hfst
    refine ⟨rfl, hfst, ?_, ?_, Or.inr rfl⟩
    · intro h
      simp [heq] at h
    · intro h
      simp [heq] at h
  · -- unstable: returns none
    rename_i buf1 heq
    rw [heq] at hfst
    refine ⟨rfl, hfst, ?_, fun _ => rfl, Or.inl rfl⟩
    · intro h
      simp [heq] at h
  · -- stable: the access to the missing landmarks must throw
    rename_i buf1 heq
    rw [heq] at hfst
    split
    · split
      · rename_i pinkyTip heq20
        rw [h20] at heq20
        cases heq20
      · refine ⟨rfl, hfst, fun _ => rfl, ?_, Or.inr rfl⟩
        intro h
        simp [heq] at h
    · refine ⟨rfl, hfst, fun _ => rfl, ?_, Or.inr rfl⟩
      intro h
      simp [heq] at h

/-- C5 (counterexample): a throwing subscriber *does* prevent delivery to the
subsequently subscribed callback: with subscribers `[cbThrow, cbOk]` only one
callback is invoked, not both, because `emitGesture` has no `try`/`catch`
around its `forEach`. -/
theorem C5_counterexample :
    (emitGesture [cbThrow, cbOk] clapEvent).1 ≠
      ([cbThrow, cbOk] : List Callback).length := by
  norm_num [emitGesture, invokeAll, cbThrow, cbOk, clapEvent]

/-- C5 (amended): delivery runs in subscription order until the first
throwing callback: the callbacks subscribed before it are all invoked, the
throwing one is invoked, every later callback is skipped, and the exception
propagates out of `emitGesture`. -/
theorem C5_propagation (pre : List Callback) (cb : Callback)
    (post : List Callback) (g : Gesture) (hconf : ¬ g.confidence < 0.75)
    (hpre : ∀ c ∈ pre, c g = .ok ()) (hcb : cb g = .error ()) :
    emitGesture (pre ++ cb :: post) g = (pre.length + 1, .error ()) := by
  rw [emitGesture, if_neg hconf]
  exact invokeAll_append pre cb post g hpre hcb

/-- C8 (counterexample): `destroy()` does not empty the subscriber list: a
tracker with one subscriber still has it after `destroy()`. -/
theorem C8_counterexample : (destroy s8).callbacks ≠ [] := by
  simp [destroy, s8]

/-- C8 (amended): `destroy()` clears both history buffers, the stability
buffer, the debounce map and the initialized flag, but leaves the subscriber
list unchanged, and a gesture emitted after `destroy()` is delivered exactly
as before (the publish path has no shutdown guard). -/
theorem C8_destroy (s : EngineState) (g : Gesture) :
    (destroy s).twoHandHistory = [] ∧
    (destroy s).gestureHistory = [] ∧
    (destroy s).handStabilityBuffer = [] ∧
    (destroy s).lastGestureTime = [] ∧
    (destroy s).previousGestureData = [] ∧
    (destroy s).isInitialized = false ∧
    (destroy s).callbacks = s.callbacks ∧
    emitGesture (destroy s).callbacks g = emitGesture s.callbacks g := by
  simp [destroy]

theorem detectTwoHandDirection_stretch_h (hist : List Measurement)
    (m : List (String × ℤ)) (current : Measurement) (now : ℤ)
    (prev : Measurement)
    (hts : current.timestamp = now)
    (hprev : jsGet hist (hist.length - 3) = some prev)
    (htime : 400 ≤ now - prev.timestamp)
    (hdc : 0.045 ≤ current.handsDistance - prev.handsDistance)
    (hratio : |current.horizontalSpread - prev.horizontalSpread| >
      |current.verticalSpread - prev.verticalSpread| * 2)
    (hadmg : 400 ≤ now - (mapGet m "STRETCH_HORIZONTAL").getD 0) :
    ∃ g, detectTwoHandDirection hist m current now =
        ⟨hist, mapSet m "STRETCH_HORIZONTAL" now, .ok (some g)⟩ ∧
      g.type = .STRETCH_HORIZONTAL ∧ g.direction = some "horizontal" ∧
      g.confidence = 0.95 := by
  have habs : |current.handsDistance - prev.handsDistance| =
      current.handsDistance - prev.handsDistance := abs_of_nonneg (by linarith)
  have hdc2 : ¬ |current.handsDistance - prev.handsDistance| < 0.045 := by
    rw [habs]
    exact not_lt.mpr hdc
  have hpos : current.handsDistance - prev.handsDistance > 0 := by linarith
  have hnotV : ¬ (|current.verticalSpread - prev.verticalSpread| >
      |current.horizontalSpread - prev.horizontalSpread| * 2) := by
    have h1 := abs_nonneg (current.verticalSpread - prev.verticalSpread)
    intro hV
    linarith
  have htc : (0:ℚ) ≤ if 7 ≤ hist.length then 0.1 else 0 := by
    split <;> norm_num
  have hconf : min 0.95 (0.65 + |current.handsDistance - prev.handsDistance| * 8 +
      (if 7 ≤ hist.length then (0.1:ℚ) else 0)) = 0.95 :=
    directional_conf _ _ (not_lt.mp hdc2) htc
  simp only [detectTwoHandDirection, hprev]
  rw [hts]
  rw [if_neg (not_lt.mpr htime)]
  rw [if_neg hdc2]
  rw [if_neg (by rw [hconf]; norm_num)]
  rw [if_pos hpos]
  rw [if_neg (by simpa using hnotV)]
  rw [if_pos (by simpa using hratio)]
  simp only [shouldEmitGesture]
  rw [if_neg (not_lt.mpr hadmg)]
  exact ⟨_, rfl, rfl, rfl, hconf⟩

theorem analyzeTwoHands_stretch_h (sqrtQ : ℚ → ℚ) (hist : List Measurement)
    (m : List (String × ℤ)) (L R : List Pt) (now : ℤ) (lt li rt ri : Pt)
    (h4 : jsGet L 4 = some lt) (h8 : jsGet L 8 = some li)
    (h4r : jsGet R 4 = some rt) (h8r : jsGet R 8 = some ri)
    (hLp : distQ sqrtQ lt li < 0.05) (hRp : distQ sqrtQ rt ri < 0.05)
    (m3 : Measurement)
    (hm3 : m3 = { timestamp := now
                  leftCenter := ⟨(lt.x + li.x) / 2, (lt.y + li.y) / 2⟩
                  rightCenter := ⟨(rt.x + ri.x) / 2, (rt.y + ri.y) / 2⟩
                  handsDistance := distQ sqrtQ ⟨(lt.x + li.x) / 2, (lt.y + li.y) / 2⟩
                    ⟨(rt.x + ri.x) / 2, (rt.y + ri.y) / 2⟩
                  horizontalSpread := |(lt.x + li.x) / 2 - (rt.x + ri.x) / 2|
                  verticalSpread := |(lt.y + li.y) / 2 - (rt.y + ri.y) / 2| })
    (hist2 : List Measurement)
    (hhist2 : hist2 = if 7 < (hist ++ [m3]).length then (hist ++ [m3]).tail
      else hist ++ [m3])
    (hlen : 3 ≤ hist2.length)
    (prev : Measurement)
    (hprev : jsGet hist2 (hist2.length - 3) = some prev)
    (htime : 400 ≤ now - prev.timestamp)
    (hdc : 0.045 ≤ m3.handsDistance - prev.handsDistance)
    (hratio : |m3.horizontalSpread - prev.horizontalSpread| >
      |m3.verticalSpread - prev.verticalSpread| * 2)
    (hadmg : 400 ≤ now - (mapGet m "STRETCH_HORIZONTAL").getD 0) :
    ∃ g, analyzeTwoHands sqrtQ hist m L R now =
        ⟨hist2, mapSet m "STRETCH_HORIZONTAL" now, .ok (some g)⟩ ∧
      g.type = .STRETCH_HORIZONTAL ∧ g.direction = some "horizontal" ∧
      g.confidence = 0.95 := by
  have hb : (!decide (distQ sqrtQ lt li < 0.05) ||
      !decide (distQ sqrtQ rt ri < 0.05)) = false := by
    simp [hLp, hRp]
  simp only [analyzeTwoHands, h4, h8, h4r, h8r]
  rw [if_neg (by simp [hb])]
  rw [← hm3]
  rw [← hhist2]
  rw [if_pos hlen]
  exact detectTwoHandDirection_stretch_h hist2 m m3 now prev (by rw [hm3])
    hprev htime hdc hratio hadmg

/-- C3: for a frame with exactly two hands, both pinching, whose pinch-center
separation increased by at least `MIN_DISTANCE_CHANGE = 0.045` relative to
the history entry three slots back — with at least 3 buffered entries, at
least 400 ms between the compared entries, and the absolute horizontal-spread
change exceeding the absolute vertical-spread change by more than the 2.0
ratio — the engine (with the debounce gate admitting) emits exactly one
`STRETCH_HORIZONTAL` event whose `direction` field is `"horizontal"`. -/
theorem C3_stretch_horizontal (sqrtQ : ℚ → ℚ) (s : EngineState)
    (hs : List String) (L R : List Pt) (now : ℤ) (lt li rt ri : Pt)
    (h4 : jsGet L 4 = some lt) (h8 : jsGet L 8 = some li)
    (h4r : jsGet R 4 = some rt) (h8r : jsGet R 8 = some ri)
    (hLp : distQ sqrtQ lt li < 0.05) (hRp : distQ sqrtQ rt ri < 0.05)
    (m3 : Measurement)
    (hm3 : m3 = { timestamp := now
                  leftCenter := ⟨(lt.x + li.x) / 2, (lt.y + li.y) / 2⟩
                  rightCenter := ⟨(rt.x + ri.x) / 2, (rt.y + ri.y) / 2⟩
                  handsDistance := distQ sqrtQ ⟨(lt.x + li.x) / 2, (lt.y + li.y) / 2⟩
                    ⟨(rt.x + ri.x) / 2, (rt.y + ri.y) / 2⟩
                  horizontalSpread := |(lt.x + li.x) / 2 - (rt.x + ri.x) / 2|
                  verticalSpread := |(lt.y + li.y) / 2 - (rt.y + ri.y) / 2| })
    (hist2 : List Measurement)
    (hhist2 : hist2 = if 7 < (s.twoHandHistory ++ [m3]).length
      then (s.twoHandHistory ++ [m3]).tail else s.twoHandHistory ++ [m3])
    (hlen : 3 ≤ hist2.length)
    (prev : Measurement)
    (hprev : jsGet hist2 (hist2.length - 3) = some prev)
    (htime : 400 ≤ now - prev.timestamp)
    (hdc : 0.045 ≤ m3.handsDistance - prev.handsDistance)
    (hratio : |m3.horizontalSpread - prev.horizontalSpread| >
      |m3.verticalSpread - prev.verticalSpread| * 2)
    (hadmg : 400 ≤ now - (mapGet s.lastGestureTime "STRETCH_HORIZONTAL").getD 0) :
    (processFrame sqrtQ s ⟨[L, R], hs⟩ now).2.map
        (fun g => (g.type, g.direction)) =
      [(GType.STRETCH_HORIZONTAL, some "horizontal")] := by
  obtain ⟨g, hA, hTy, hDir, hConf⟩ := analyzeTwoHands_stretch_h sqrtQ
    s.twoHandHistory s.lastGestureTime L R now lt li rt ri h4 h8 h4r h8r
    hLp hRp m3 hm3 hist2 hhist2 hlen prev hprev htime hdc hratio hadmg
  simp only [processFrame, detectGestures, List.length_cons, List.length_nil,
    jsGet, hA]
  norm_num [hConf, hTy, hDir]

/-- C7 (amended): a single stable hand whose index–pinky fingertip distance
is 0.30 (not pinching), with the debounce gate admitting, makes the engine
emit exactly one `SPREAD` event — but its confidence is 0.90, not the 0.85
the specification states: `calculateConfidence(0.75, stable, true)` adds
both the 0.1 stability bonus and the 0.05 history bonus
(`hasHistory` is passed as the literal `true`), giving
`min(0.95, 0.9) = 0.9`. -/
theorem C7_spread_conf (sqrtQ : ℚ → ℚ) (s : EngineState) (hs : List String)
    (lms : List Pt) (now : ℤ) (tt it pt w : Pt)
    (h4 : jsGet lms 4 = some tt) (h8 : jsGet lms 8 = some it)
    (h20 : jsGet lms 20 = some pt) (h0 : jsGet lms 0 = some w)
    (hstable : (checkHandStability sqrtQ s.handStabilityBuffer lms now).2 = .ok true)
    (hnp : ¬ distQ sqrtQ tt it < 0.05)
    (hsp : distQ sqrtQ it pt = 0.3)
    (hadmg : 400 ≤ now - (mapGet s.lastGestureTime
      ("SPREAD_" ++ (jsGet hs 0).getD "Unknown")).getD 0) :
    (processFrame sqrtQ s ⟨[lms], hs⟩ now).2.map
        (fun g => (g.type, g.confidence)) = [(GType.SPREAD, 0.9)] := by
  obtain ⟨bufX, hcs⟩ : ∃ b, checkHandStability sqrtQ s.handStabilityBuffer lms now
      = (b, .ok true) := ⟨(checkHandStability sqrtQ s.handStabilityBuffer lms now).1,
        by rw [← hstable]⟩
  have hadm2 : ¬ (now - (mapGet s.lastGestureTime
      ("SPREAD_" ++ (jsGet hs 0).getD "Unknown")).getD 0 < 400) :=
    not_lt.mpr hadmg
  have hc34 : calculateConfidence (3/4 : ℚ) true true = 9/10 := by
    norm_num [calculateConfidence, min_def]
  have hnp2 : ¬ distQ sqrtQ tt it < 1/20 := by
    rw [show (1/20 : ℚ) = 0.05 by norm_num]
    exact hnp
  have hsp2 : (1/4 : ℚ) < distQ sqrtQ it pt := by
    rw [hsp]
    norm_num
  norm_num [processFrame, detectGestures, jsGet, analyzeSingleHand, hcs,
    h4, h8, h20, h0, shouldEmitGesture]
  rw [if_neg hnp2]
  rw [if_pos hsp2]
  rw [if_neg hadm2]
  norm_num [hsp, hc34]

theorem C1_confidence_bounds_witness :
    clapEvent ∈ (runEngine (fun x => x) initialState [(clapFrame, 1000)]).2 ∧
      0.75 ≤ clapEvent.confidence ∧ clapEvent.confidence ≤ 0.95 := by
  have hm : clapEvent ∈ (runEngine (fun x => x) initialState
      [(clapFrame, 1000)]).2 := by
    norm_num [runEngine, processFrame, detectGestures, analyzeTwoHands,
      shouldEmitGesture, mapGet, mapSet, distQ, sqDist, jsGet, initialState,
      clapFrame, clapHand, clapEvent, min_def, Gesture.mk.injEq, Pt.mk.injEq]
  exact ⟨hm, C1_confidence_bounds (fun x => x) [(clapFrame, 1000)] clapEvent hm⟩

theorem C2_debounce_witness :
    List.Chain' (· ≤ ·) ((0 : ℤ) :: ([(clapFrame, 1000)].map Prod.snd)) ∧
      List.Pairwise
        (fun g1 g2 => g1.type = g2.type → g1.handedness = g2.handedness →
          400 ≤ |g2.timestamp - g1.timestamp|)
        (runEngine (fun x : ℚ => x) initialState [(clapFrame, 1000)]).2 :=
  ⟨by simp [List.chain'_cons], C2_debounce (fun x : ℚ => x) [(clapFrame, 1000)]
    (by simp [List.chain'_cons])⟩

theorem C9_determinism_witness :
    runEngine (fun x : ℚ => x) initialState [(clapFrame, 1000)] =
      runEngine (fun x : ℚ => x) initialState [(clapFrame, 1000)] :=
  C9_determinism (fun x : ℚ => x) [(clapFrame, 1000)] initialState initialState
    rfl rfl

theorem C4_stability_witness :
    checkHandStability (fun x => x) [] [(⟨0, 0⟩ : Pt)] 0 =
        ([⟨some ⟨0, 0⟩, 0⟩], .ok false) ∧
      analyzeSingleHand (fun x => x) [] [] [(⟨0, 0⟩ : Pt)] "Left" 0 =
        ⟨[⟨some ⟨0, 0⟩, 0⟩], [], .ok none⟩ :=
  ⟨rfl, (C4_stability (fun x => x) [] [⟨0, 0⟩] 0 ⟨0, 0⟩ [] "Left" _ _ rfl
    (by simp) (by decide) rfl).2.2 rfl⟩

theorem C6_short_hand_witness :
    ([(⟨0, 0⟩ : Pt)] : List Pt).length < 21 ∧
      (checkHandStability (fun _ => 0) c6buf [(⟨0, 0⟩ : Pt)] 5).2 = .ok true ∧
      (analyzeSingleHand (fun _ => 0) c6buf [] [(⟨0, 0⟩ : Pt)] "Right" 5).gesture
        = .error () := by
  have hst : (checkHandStability (fun _ => 0) c6buf [(⟨0, 0⟩ : Pt)] 5).2 =
      .ok true := by
    norm_num [checkHandStability, pushTrim, jitterFold, distO, distQ, sqDist,
      jsGet, c6buf]
  exact ⟨by decide, hst,
    (C6_short_hand (fun _ => 0) c6buf [] [⟨0, 0⟩] "Right" 5 (by decide)).2.2.1 hst⟩

theorem C5_propagation_witness :
    ¬ clapEvent.confidence < 0.75 ∧
      emitGesture [cbOk, cbThrow, cbOk] clapEvent = (2, .error ()) := by
  have h1 : ¬ clapEvent.confidence < 0.75 := by norm_num [clapEvent]
  refine ⟨h1, ?_⟩
  have h2 := C5_propagation [cbOk] cbThrow [cbOk] clapEvent h1
    (fun c hc => by rw [List.mem_singleton] at hc; subst hc; rfl) rfl
  simpa using h2

theorem C10_directional_conf_witness :
    stretchEvent ∈ (runEngine stretchSqrt initialState stretchFrames).2 ∧
      isDirectional stretchEvent.type = true ∧ stretchEvent.confidence = 0.95 := by
  have ha1 : |(1/5 : ℚ)| = 1/5 := abs_of_nonneg (by norm_num)
  have ha2 : |(7/10 : ℚ)| = 7/10 := abs_of_nonneg (by norm_num)
  have ha3 : |(1/2 : ℚ)| = 1/2 := abs_of_nonneg (by norm_num)
  have hm : stretchEvent ∈ (runEngine stretchSqrt initialState stretchFrames).2 := by
    norm_num [runEngine, processFrame, detectGestures, analyzeTwoHands,
      detectTwoHandDirection, shouldEmitGesture, mapGet, mapSet, distQ, sqDist,
      jsGet, initialState, stretchSqrt, stretchFrames, stretchHand1L,
      stretchHand1R, stretchHand3L, stretchHand3R, stretchEvent,
      List.replicate, min_def, Gesture.mk.injEq, Pt.mk.injEq, ha1, ha2, ha3]
  exact ⟨hm, rfl, C10_directional_conf stretchSqrt stretchFrames stretchEvent hm rfl⟩

theorem C3_stretch_horizontal_witness :
    distQ stretchSqrt ⟨1/10, 1/2⟩ ⟨1/10, 1/2⟩ < 0.05 ∧
      0.045 ≤ m3w.handsDistance - m1w.handsDistance ∧
      (processFrame stretchSqrt s3
          ⟨[stretchHand3L, stretchHand3R], ["Left", "Right"]⟩ 1000).2.map
          (fun g => (g.type, g.direction)) =
        [(GType.STRETCH_HORIZONTAL, some "horizontal")] := by
  have ha2 : |(7/10 : ℚ)| = 7/10 := abs_of_nonneg (by norm_num)
  have ha3 : |(1/2 : ℚ)| = 1/2 := abs_of_nonneg (by norm_num)
  have hL : distQ stretchSqrt ⟨1/10, 1/2⟩ ⟨1/10, 1/2⟩ < 0.05 := by
    norm_num [distQ, sqDist, stretchSqrt]
  have hR : distQ stretchSqrt ⟨4/5, 1/2⟩ ⟨4/5, 1/2⟩ < 0.05 := by
    norm_num [distQ, sqDist, stretchSqrt]
  refine ⟨hL, by norm_num [m3w, m1w], ?_⟩
  exact C3_stretch_horizontal stretchSqrt s3 ["Left", "Right"]
    stretchHand3L stretchHand3R 1000 ⟨1/10, 1/2⟩ ⟨1/10, 1/2⟩ ⟨4/5, 1/2⟩ ⟨4/5, 1/2⟩
    (by norm_num [stretchHand3L, List.replicate, jsGet])
    (by norm_num [stretchHand3L, List.replicate, jsGet])
    (by norm_num [stretchHand3R, List.replicate, jsGet])
    (by norm_num [stretchHand3R, List.replicate, jsGet])
    hL hR m3w
    (by norm_num [m3w, distQ, sqDist, stretchSqrt, Measurement.mk.injEq,
      Pt.mk.injEq, ha2])
    [m1w, m2w, m3w]
    (by norm_num [s3, initialState])
    (by norm_num)
    m1w (by norm_num [jsGet]) (by norm_num [m1w])
    (by norm_num [m3w, m1w])
    (by norm_num [m3w, m1w, ha3])
    (by norm_num [s3, initialState, mapGet])

/-- C7 (counterexample): in the claimed scenario — single stable hand,
index–pinky distance 0.30, not pinching, debounce admitting — the engine
does emit exactly one SPREAD event, but its confidence is 9/10 = 0.90,
not 0.85 as the claim states. -/
theorem C7_counterexample :
    (processFrame spreadSqrt s7 f7 1000).2.map (fun g => (g.type, g.confidence)) =
      [(GType.SPREAD, 9/10)] ∧ (9/10 : ℚ) ≠ 0.85 := by
  constructor
  · norm_num [processFrame, detectGestures, analyzeSingleHand, checkHandStability,
      pushTrim, jitterFold, distO, distQ, sqDist, jsGet, shouldEmitGesture, mapGet,
      mapSet, calculateConfidence, spreadSqrt, s7, f7, spreadBuf, spreadHand,
      initialState, min_def]
  · norm_num

theorem C7_spread_conf_witness :
    (checkHandStability spreadSqrt s7.handStabilityBuffer spreadHand 1000).2 =
        .ok true ∧
      distQ spreadSqrt ⟨1/10, 1/10⟩ ⟨1/2, 1/2⟩ = 0.3 ∧
      (processFrame spreadSqrt s7 f7 1000).2.map
        (fun g => (g.type, g.confidence)) = [(GType.SPREAD, 0.9)] := by
  have hst : (checkHandStability spreadSqrt s7.handStabilityBuffer spreadHand
      1000).2 = .ok true := by
    norm_num [checkHandStability, pushTrim, jitterFold, distO, distQ, sqDist,
      jsGet, spreadSqrt, s7, spreadBuf, spreadHand, initialState]
  have hsp : distQ spreadSqrt ⟨1/10, 1/10⟩ ⟨1/2, 1/2⟩ = 0.3 := by
    norm_num [distQ, sqDist, spreadSqrt]
  refine ⟨hst, hsp, ?_⟩
  exact C7_spread_conf spreadSqrt s7 ["Right"] spreadHand 1000
    ⟨1/2, 1/2⟩ ⟨1/10, 1/10⟩ ⟨1/2, 1/2⟩ ⟨1/2, 1/2⟩
    (by norm_num [spreadHand, jsGet]) (by norm_num [spreadHand, jsGet])
    (by norm_num [spreadHand, jsGet]) (by norm_num [spreadHand, jsGet])
    hst
    (by norm_num [distQ, sqDist, spreadSqrt])
    hsp
    (by norm_num [s7, initialState, mapGet, jsGet])
